import Mathlib

set_option autoImplicit false

/-!
Shallow embedding of the bendcrete geospatial risk engine.

Sources embedded here:
* src/lib/geospatial-utils.ts  (isPointInPolygon, checkFloodRisk,
  calculateDistanceToFeature, findNearestFloodPoint, findEarthquakeZone)
* src/lib/earthquake-zones-info.ts  (earthquakeZonesInfo, getZoneInfo)
* src/lib/climate.ts  (getClimateCostMultiplier)
* the cost-model block of the ConstructionCost component
  (src/unnamed/part_002, lines 79-134)

Numbers are modelled as rationals.  The external @turf/turf geometry
library is not part of the repository; its primitives are abstracted as a
`Turf` record of total functions (the repository code wraps every turf
call in try/catch; with total primitives the catch branches that fire
only on a thrown turf exception are unreachable and are elided).
A JavaScript `Infinity` distance is modelled as `none : Option Rat`.
-/

namespace Bendcrete

/-- Point with latitude and longitude in decimal degrees, from
src/lib/geospatial-utils.ts. -/
structure Point where
  lat : ℚ
  lng : ℚ
deriving DecidableEq, Repr

/-- Coordinate pair in GeoJSON order: (lng, lat). -/
abbrev Coord : Type := ℚ × ℚ

/-- GeoJSON-like geometry as consumed by the hazard functions: a Polygon
is a list of linear rings, a MultiPolygon a list of polygons; `other`
stands for any further geometry type that carries a coordinates field
(its payload is opaque to the repository code, which hands it to turf). -/
inductive Geometry where
  | polygon (rings : List (List Coord))
  | multiPolygon (polys : List (List (List Coord)))
  | other (tag : ℕ)
deriving DecidableEq, Repr

/-- Feature of a FeatureCollection.  `geometry = none` models a feature
whose geometry or geometry.coordinates field is missing; `pga = none`
models a feature without properties or without a truthy properties.PGA. -/
structure Feature where
  geometry : Option Geometry
  pga : Option String
deriving DecidableEq, Repr

/-- Oracle for the external @turf/turf library: every geometric
primitive the repository calls, as a total function. -/
structure Turf where
  /-- turf.booleanPointInPolygon on a polygon built from ring coordinates. -/
  containsPoly : Point → List (List Coord) → Bool
  /-- turf.booleanPointInPolygon on a generic feature (non-Polygon types). -/
  containsFeature : Point → Geometry → Bool
  /-- turf.polygonToLine followed by turf.pointToLineDistance, km. -/
  polyBoundaryDist : Point → Geometry → ℚ
  /-- turf.pointToLineDistance straight on a geometry, km. -/
  lineDist : Point → Geometry → ℚ
  /-- turf.pointToLineDistance on the 2-point lineString of one segment, km. -/
  segDist : Point → Coord → Coord → ℚ
  /-- turf.distance between the query point and a coordinate, km. -/
  dist : Point → Coord → ℚ

/-- Comparison `a < b` on distances where `none` plays JavaScript
Infinity: Infinity is smaller than nothing, everything finite is smaller
than Infinity. -/
def dLt (a b : Option ℚ) : Bool :=
  match a, b with
  | none, _ => false
  | some _, none => true
  | some x, some y => decide (x < y)

/-- Comparison `a <= c` of a possibly-infinite distance with a finite
bound (JavaScript: Infinity <= c is false). -/
def dLe (a : Option ℚ) (c : ℚ) : Bool :=
  match a with
  | none => false
  | some x => decide (x ≤ c)

/-- Embeds isPointInPolygon (geospatial-utils.ts lines 24-65): false on
missing geometry or coordinates, ring test for Polygon, any-polygon test
for MultiPolygon, generic turf feature test otherwise. -/
def isPointInPolygon (t : Turf) (point : Point) (geometry : Option Geometry) : Bool :=
  match geometry with
  | none => false
  | some (.polygon rings) => t.containsPoly point rings
  | some (.multiPolygon polys) => polys.any (fun rings => t.containsPoly point rings)
  | some g => t.containsFeature point g

/-- Embeds calculateDistanceToFeature (geospatial-utils.ts lines
163-209): Infinity on missing geometry, boundary distance for
Polygon/MultiPolygon, raw line distance for other geometry types. -/
def calculateDistanceToFeature (t : Turf) (point : Point) (f : Feature) : Option ℚ :=
  match f.geometry with
  | none => none
  | some (.polygon rings) => some (t.polyBoundaryDist point (.polygon rings))
  | some (.multiPolygon polys) => some (t.polyBoundaryDist point (.multiPolygon polys))
  | some g => some (t.lineDist point g)

/-- Risk level of FloodRisk, union type of geospatial-utils.ts line 9. -/
inductive FloodLevel where
  | safe
  | mediumRisk
  | highRisk
deriving DecidableEq, Repr

/-- FloodRisk record (geospatial-utils.ts lines 8-13).  The returned
distance is always finite (999 replaces Infinity), hence plain ℚ. -/
structure FloodRisk where
  level : FloodLevel
  distance : ℚ
  inFloodExtent : Bool
  inBuffer : Bool
deriving DecidableEq, Repr

/-- Containment pass of checkFloodRisk (lines 94-114): scan the first 20
features, a feature counts when its geometry is present and
isPointInPolygon holds (the loop breaks at the first hit, which `any`
reproduces). -/
def floodInExtent (t : Turf) (point : Point) (floodExtent : Option (List Feature)) : Bool :=
  match floodExtent with
  | none => false
  | some features =>
      (features.take 20).any fun f => f.geometry.isSome && isPointInPolygon t point f.geometry

/-- Distance pass of checkFloodRisk (lines 118-138): walk the features,
skip those without geometry, keep the running minimum, and break early
as soon as the freshly lowered minimum is within the buffer radius. -/
def floodDistLoop (t : Turf) (point : Point) (bufferRadiusKm : ℚ) :
    List Feature → Option ℚ → Option ℚ
  | [], minDistance => minDistance
  | f :: rest, minDistance =>
      if f.geometry.isSome then
        let distance := calculateDistanceToFeature t point f
        if dLt distance minDistance then
          if dLe distance bufferRadiusKm then distance
          else floodDistLoop t point bufferRadiusKm rest distance
        else floodDistLoop t point bufferRadiusKm rest minDistance
      else floodDistLoop t point bufferRadiusKm rest minDistance

/-- Minimum distance as computed by checkFloodRisk: 0 when contained,
otherwise the distance loop over the first 5 features; Infinity when the
collection is null or lacks a features field. -/
def floodMinDistance (t : Turf) (point : Point) (floodExtent : Option (List Feature))
    (bufferRadiusKm : ℚ) : Option ℚ :=
  if floodInExtent t point floodExtent then some 0
  else
    match floodExtent with
    | none => none
    | some features => floodDistLoop t point bufferRadiusKm (features.take 5) none

/-- Embeds checkFloodRisk (geospatial-utils.ts lines 85-158). -/
def checkFloodRisk (t : Turf) (point : Point) (floodExtent : Option (List Feature))
    (bufferRadiusKm : ℚ) : FloodRisk :=
  let inFloodExtent := floodInExtent t point floodExtent
  let minDistance := floodMinDistance t point floodExtent bufferRadiusKm
  let inBuffer := !inFloodExtent && dLe minDistance bufferRadiusKm
  let level :=
    if inFloodExtent then FloodLevel.highRisk
    else if inBuffer then FloodLevel.mediumRisk
    else FloodLevel.safe
  { level := level
    distance := minDistance.getD 999
    inFloodExtent := inFloodExtent
    inBuffer := inBuffer }

/-- EarthquakeZoneResult record (geospatial-utils.ts lines 15-18). -/
structure EarthquakeZoneResult where
  zone : String
  pga : String
deriving DecidableEq, Repr

/-- Feature loop of findEarthquakeZone (geospatial-utils.ts lines
424-445): skip a feature lacking geometry or a PGA property, answer at
the first containment hit. -/
def zoneScan (t : Turf) (point : Point) : List Feature → Option EarthquakeZoneResult
  | [] => none
  | f :: rest =>
      if f.geometry.isSome then
        match f.pga with
        | none => zoneScan t point rest
        | some label =>
            if isPointInPolygon t point f.geometry then
              some { zone := label, pga := label }
            else zoneScan t point rest
      else zoneScan t point rest

/-- Embeds findEarthquakeZone (geospatial-utils.ts lines 414-448):
iterate the features in order, skip those lacking geometry or a PGA
property, return the first containment hit with the PGA label copied
into both fields; null when nothing matches or the collection is null. -/
def findEarthquakeZone (t : Turf) (point : Point)
    (earthquakeZones : Option (List Feature)) : Option EarthquakeZoneResult :=
  match earthquakeZones with
  | none => none
  | some features => zoneScan t point features

/-- Sample coordinate number k of 15 along the segment from c1 to c2
(findNearestFloodPoint lines 300-303). -/
def sampleAt (c1 c2 : Coord) (k : ℕ) : Coord :=
  (c1.1 + (k : ℚ) / 15 * (c2.1 - c1.1), c1.2 + (k : ℚ) / 15 * (c2.2 - c1.2))

/-- Sampling loop of findNearestFloodPoint (lines 295-316): 16 samples
along the segment, tracking the minimum turf.distance and its
coordinate. -/
def bestSample (t : Turf) (point : Point) (c1 c2 : Coord) : Option ℚ × Option Coord :=
  (List.range 16).foldl
    (fun acc k =>
      let s := sampleAt c1 c2 k
      let sampleDist := t.dist point s
      if dLt (some sampleDist) acc.1 then (some sampleDist, some s) else acc)
    (none, none)

/-- Per-segment update of findNearestFloodPoint (lines 285-334): when
the segment line is closer than the best so far, take the best sampled
point if it improves, otherwise fall back to the nearer endpoint. -/
def segUpdate (t : Turf) (point : Point) (c1 c2 : Coord)
    (acc : Option ℚ × Option Coord) : Option ℚ × Option Coord :=
  let d := t.segDist point c1 c2
  if dLt (some d) acc.1 then
    let sampled := bestSample t point c1 c2
    if sampled.2.isSome && dLt sampled.1 acc.1 then sampled
    else
      let d1 := t.dist point c1
      let d2 := t.dist point c2
      if d1 < d2 ∧ dLt (some d1) acc.1 then (some d1, some c1)
      else if dLt (some d2) acc.1 then (some d2, some c2)
      else acc
  else acc

/-- Boundary-segment scan of findNearestFloodPoint (lines 269-350): all
edges of the outer ring, the last edge wrapping around to the first
coordinate. -/
def segScan (t : Turf) (point : Point) (boundaryCoords : List Coord) :
    Option ℚ × Option Coord :=
  (List.range boundaryCoords.length).foldl
    (fun acc j =>
      match boundaryCoords.get? j, boundaryCoords.get? ((j + 1) % boundaryCoords.length) with
      | some c1, some c2 => segUpdate t point c1 c2 acc
      | _, _ => acc)
    (none, none)

/-- Outer boundary ring extracted by findNearestFloodPoint (lines
240-263): first ring of a Polygon, first ring of the first polygon of a
MultiPolygon, empty otherwise (coordinates are typed here, so the
per-coordinate validity filter of the source keeps everything). -/
def outerBoundary : Geometry → List Coord
  | .polygon rings => rings.head?.getD []
  | .multiPolygon polys => ((polys.head?.getD []).head?.getD [])
  | .other _ => []

/-- Closest boundary distance and coordinate one feature contributes in
findNearestFloodPoint (lines 230-350): nothing for missing geometry,
non-polygon types (no branch in the source loop) or an empty boundary. -/
def featureClosest (t : Turf) (point : Point) (f : Feature) : Option ℚ × Option Coord :=
  match f.geometry with
  | none => (none, none)
  | some (.other _) => (none, none)
  | some g =>
      let boundaryCoords := outerBoundary g
      if boundaryCoords.isEmpty then (none, none)
      else segScan t point boundaryCoords

/-- Running state of the findNearestFloodPoint feature loop. -/
structure NearState where
  minDistance : Option ℚ
  nearestPoint : Option Point
  nearestFeature : Option Feature
deriving DecidableEq, Repr

/-- One iteration of the findNearestFloodPoint feature loop (lines
352-363): adopt the feature when its closest distance improves on the
minimum; the nearest point is updated only when a coordinate was found. -/
def nearestStep (t : Turf) (point : Point) (st : NearState) (f : Feature) : NearState :=
  let c := featureClosest t point f
  if dLt c.1 st.minDistance then
    { minDistance := c.1
      nearestFeature := some f
      nearestPoint :=
        match c.2 with
        | some coord => some { lat := coord.2, lng := coord.1 }
        | none => st.nearestPoint }
  else st

/-- Embeds the getFirstCoord helper of findNearestFloodPoint (lines
380-389): recursively the first coordinate pair of the nested
coordinate arrays. -/
def getFirstCoord : Geometry → Option Coord
  | .polygon rings => rings.head?.bind List.head?
  | .multiPolygon polys => (polys.head?.bind List.head?).bind List.head?
  | .other _ => none

/-- Result record of findNearestFloodPoint (line 217).  distance is
`none` for JavaScript Infinity (the early return on a null collection
leaves Infinity in this field). -/
structure NearestResult where
  distance : Option ℚ
  nearestPoint : Option Point
  feature : Option Feature
deriving DecidableEq, Repr

/-- Embeds findNearestFloodPoint (geospatial-utils.ts lines 214-409):
early return on a null or featureless collection, scan of the first 10
features, first-coordinate fallback when a distance was found without a
nearest point, and the 999 sentinel replacing Infinity on the main
path. -/
def findNearestFloodPoint (t : Turf) (point : Point)
    (floodExtent : Option (List Feature)) : NearestResult :=
  match floodExtent with
  | none => { distance := none, nearestPoint := none, feature := none }
  | some features =>
      let st := (features.take 10).foldl (nearestStep t point) ⟨none, none, none⟩
      let nearestPoint :=
        match st.minDistance, st.nearestPoint, st.nearestFeature with
        | some _, none, some f =>
            (f.geometry.bind getFirstCoord).map fun c => Point.mk c.2 c.1
        | _, _, _ => st.nearestPoint
      { distance := some (st.minDistance.getD 999)
        nearestPoint := nearestPoint
        feature := st.nearestFeature }

/-- EarthquakeZoneInfo record (earthquake-zones-info.ts lines 1-10);
riskLevel is the string literal union of the source. -/
structure EarthquakeZoneInfo where
  zone : String
  pga : String
  description : String
  riskLevel : String
  conditions : List String
  vulnerability : List String
  constructionRecommendations : List String
  costMultiplier : ℚ
deriving DecidableEq, Repr

/-- Catalog entry for Zone 1 (earthquake-zones-info.ts lines 13-37). -/
def zone1Info : EarthquakeZoneInfo where
  zone := "Zone 1"
  pga := "< 0.05g"
  description := "Lowest seismic hazard zone with minimal earthquake risk"
  riskLevel := "Low"
  conditions :=
    [ "Very low probability of significant ground shaking"
    , "Stable geological conditions"
    , "Minimal seismic activity historically"
    , "Suitable for standard construction practices" ]
  vulnerability :=
    [ "Low vulnerability to earthquake damage"
    , "Minimal risk of structural failure"
    , "Low risk of ground liquefaction"
    , "Stable foundation conditions" ]
  constructionRecommendations :=
    [ "Standard building codes sufficient"
    , "No special seismic reinforcement required"
    , "Standard foundation design acceptable"
    , "Regular construction materials suitable" ]
  costMultiplier := 1

/-- Catalog entry for Zone 2A (earthquake-zones-info.ts lines 38-62). -/
def zone2AInfo : EarthquakeZoneInfo where
  zone := "Zone 2A"
  pga := "0.05g - 0.10g"
  description := "Low to moderate seismic hazard zone"
  riskLevel := "Moderate"
  conditions :=
    [ "Low to moderate probability of ground shaking"
    , "Generally stable geological conditions"
    , "Occasional minor seismic activity"
    , "Most of Punjab falls in this zone" ]
  vulnerability :=
    [ "Moderate vulnerability to earthquake damage"
    , "Some risk of structural damage in strong earthquakes"
    , "Low to moderate risk of ground effects"
    , "Generally stable foundation conditions" ]
  constructionRecommendations :=
    [ "Follow standard seismic building codes"
    , "Consider basic seismic reinforcement"
    , "Ensure proper foundation design"
    , "Use quality construction materials" ]
  costMultiplier := 23 / 20

/-- Catalog entry for Zone 2B (earthquake-zones-info.ts lines 63-88). -/
def zone2BInfo : EarthquakeZoneInfo where
  zone := "Zone 2B"
  pga := "0.10g - 0.15g"
  description := "Moderate seismic hazard zone with increased risk"
  riskLevel := "Moderate"
  conditions :=
    [ "Moderate probability of significant ground shaking"
    , "Some areas with active fault lines"
    , "Historical moderate seismic activity"
    , "Requires careful site assessment" ]
  vulnerability :=
    [ "Moderate to high vulnerability"
    , "Risk of structural damage in moderate earthquakes"
    , "Moderate risk of ground liquefaction in some areas"
    , "Foundation stability needs assessment" ]
  constructionRecommendations :=
    [ "Strict adherence to seismic building codes"
    , "Seismic reinforcement recommended"
    , "Professional geotechnical assessment required"
    , "Enhanced foundation design necessary"
    , "Consider base isolation for critical structures" ]
  costMultiplier := 13 / 10

/-- Catalog entry for Zone 3 (earthquake-zones-info.ts lines 89-117). -/
def zone3Info : EarthquakeZoneInfo where
  zone := "Zone 3"
  pga := "0.15g - 0.25g"
  description := "High seismic hazard zone requiring special attention"
  riskLevel := "High"
  conditions :=
    [ "High probability of significant ground shaking"
    , "Active fault lines present"
    , "History of moderate to strong earthquakes"
    , "Requires comprehensive site evaluation" ]
  vulnerability :=
    [ "High vulnerability to earthquake damage"
    , "Significant risk of structural failure"
    , "High risk of ground liquefaction"
    , "Potential for landslides and slope failures"
    , "Foundation instability concerns" ]
  constructionRecommendations :=
    [ "Mandatory strict seismic building codes"
    , "Comprehensive seismic reinforcement required"
    , "Professional geotechnical and seismic assessment mandatory"
    , "Enhanced foundation design with deep foundations"
    , "Consider seismic isolation systems"
    , "Regular structural inspections recommended"
    , "Use earthquake-resistant construction techniques" ]
  costMultiplier := 3 / 2

/-- Catalog entry for Zone 4 (earthquake-zones-info.ts lines 118-150). -/
def zone4Info : EarthquakeZoneInfo where
  zone := "Zone 4"
  pga := "> 0.25g"
  description := "Very high seismic hazard zone - highest risk area"
  riskLevel := "Very High"
  conditions :=
    [ "Very high probability of severe ground shaking"
    , "Active major fault lines"
    , "History of major destructive earthquakes"
    , "Most hazardous zone in Pakistan"
    , "Requires extensive engineering solutions" ]
  vulnerability :=
    [ "Very high vulnerability to earthquake damage"
    , "High risk of complete structural failure"
    , "Very high risk of ground liquefaction"
    , "High risk of landslides and rockfalls"
    , "Severe foundation instability"
    , "Potential for surface rupture" ]
  constructionRecommendations :=
    [ "Maximum seismic building code compliance required"
    , "Extensive seismic reinforcement mandatory"
    , "Comprehensive geotechnical and seismic studies essential"
    , "Advanced foundation systems required (piles, deep foundations)"
    , "Seismic isolation or damping systems highly recommended"
    , "Specialized earthquake-resistant design mandatory"
    , "Regular monitoring and maintenance required"
    , "Consider alternative construction sites if possible"
    , "Use only certified earthquake-resistant materials" ]
  costMultiplier := 9 / 5

/-- Embeds the earthquakeZonesInfo record (earthquake-zones-info.ts
lines 12-151) as a lookup over its five keys. -/
def earthquakeZonesInfo (key : String) : Option EarthquakeZoneInfo :=
  if key = "Zone 1" then some zone1Info
  else if key = "Zone 2A" then some zone2AInfo
  else if key = "Zone 2B" then some zone2BInfo
  else if key = "Zone 3" then some zone3Info
  else if key = "Zone 4" then some zone4Info
  else none

/-- Embeds getZoneInfo (earthquake-zones-info.ts lines 153-155). -/
def getZoneInfo (zoneName : String) : Option EarthquakeZoneInfo :=
  earthquakeZonesInfo zoneName

/-- ClimateData record (climate.ts lines 7-23). -/
structure ClimateData where
  latitude : ℚ
  longitude : ℚ
  elevation : ℚ
  temperature2mMean : ℚ
  temperature2mMax : ℚ
  temperature2mMin : ℚ
  precipitationSum : ℚ
  windspeed10mMean : ℚ
  relativehumidity2mMean : ℚ
  climateZone : Option String
deriving DecidableEq, Repr

/-- Embeds getClimateCostMultiplier (climate.ts lines 181-222).  The
sequence of `multiplier +=` statements is rendered as the sum of one
contribution per block: an else-if chain for temperature, a chain for
precipitation, the humidity chain guarded by availability, and a chain
for wind. -/
def getClimateCostMultiplier (climate : Option ClimateData) : ℚ :=
  match climate with
  | none => 1
  | some c =>
      1
      + (if 40 < c.temperature2mMax then 8 / 100
         else if 35 < c.temperature2mMax then 5 / 100
         else if c.temperature2mMin < -10 then 8 / 100
         else if c.temperature2mMin < 0 then 5 / 100
         else 0)
      + (if 200 < c.precipitationSum then 6 / 100
         else if 100 < c.precipitationSum then 3 / 100
         else 0)
      + (if 0 < c.relativehumidity2mMean then
           if 80 < c.relativehumidity2mMean then 4 / 100
           else if 70 < c.relativehumidity2mMean then 2 / 100
           else 0
         else 0)
      + (if 25 < c.windspeed10mMean then 5 / 100
         else if 15 < c.windspeed10mMean then 2 / 100
         else 0)

/-- ElevationData record (elevation.ts lines 5-9). -/
structure ElevationData where
  latitude : ℚ
  longitude : ℚ
  elevation : ℚ
deriving DecidableEq, Repr

/-- WeatherData record (weather module, fields consumed by the cost
model plus the remaining numeric and string fields). -/
structure WeatherData where
  temperature : ℚ
  feelsLike : ℚ
  humidity : ℚ
  pressure : ℚ
  windSpeed : ℚ
  windDirection : ℚ
  description : String
  icon : String
  visibility : ℚ
  cloudCover : ℚ
  location : String
deriving DecidableEq, Repr

/-- Earthquake multiplier of the cost model (ConstructionCost lines
79-82): the catalog costMultiplier of the matched zone, with the
JavaScript `|| 1.0` fallback that also catches a falsy zero. -/
def earthquakeMultiplier (earthquakeZone : Option EarthquakeZoneResult) : ℚ :=
  match earthquakeZone.bind fun z => getZoneInfo z.zone with
  | none => 1
  | some zi => if zi.costMultiplier = 0 then 1 else zi.costMultiplier

/-- Flood multiplier of the cost model (ConstructionCost line 83). -/
def floodMultiplier (floodRisk : Option FloodRisk) : ℚ :=
  match floodRisk with
  | none => 1
  | some r =>
      if r.level = FloodLevel.highRisk then 13 / 10
      else if r.level = FloodLevel.mediumRisk then 23 / 20
      else 1

/-- Elevation multiplier of the cost model (ConstructionCost lines
87-96). -/
def elevationMultiplier (elevation : Option ElevationData) : ℚ :=
  match elevation with
  | none => 1
  | some e =>
      if 2000 < e.elevation then 23 / 20
      else if 1000 < e.elevation then 11 / 10
      else if 500 < e.elevation then 21 / 20
      else 1

/-- Weather fallback multiplier of the cost model (ConstructionCost
lines 103-121), used only when no climate data is present; the
windSpeed number-type guard of the source always holds here.  The four
`+=` statements become four independent additive contributions. -/
def weatherMultiplier (weather : Option WeatherData) : ℚ :=
  match weather with
  | none => 1
  | some w =>
      1
      + (if 80 < w.humidity then 3 / 100 else 0)
      + (if 40 < w.temperature ∨ w.temperature < 0 then 5 / 100 else 0)
      + (if 30 < w.windSpeed then 4 / 100 else 0)
      + (if 85 < w.humidity ∧ 15 < w.temperature ∧ w.temperature < 35 then 2 / 100 else 0)

/-- Environmental multiplier of the cost model (ConstructionCost lines
100-124): the climate multiplier when climate data is available,
otherwise the weather fallback. -/
def environmentalMultiplier (climate : Option ClimateData) (weather : Option WeatherData) : ℚ :=
  match climate with
  | some _ => getClimateCostMultiplier climate
  | none => weatherMultiplier weather

/-- Total multiplier of the cost model (ConstructionCost line 126). -/
def totalMultiplier (floodRisk : Option FloodRisk) (earthquakeZone : Option EarthquakeZoneResult)
    (elevation : Option ElevationData) (climate : Option ClimateData)
    (weather : Option WeatherData) : ℚ :=
  earthquakeMultiplier earthquakeZone * floodMultiplier floodRisk *
    elevationMultiplier elevation * environmentalMultiplier climate weather

/-- Adjusted cost per square foot (ConstructionCost line 134). -/
def adjustedCostPerSqft (baseCost : ℚ) (floodRisk : Option FloodRisk)
    (earthquakeZone : Option EarthquakeZoneResult) (elevation : Option ElevationData)
    (climate : Option ClimateData) (weather : Option WeatherData) : ℚ :=
  baseCost * totalMultiplier floodRisk earthquakeZone elevation climate weather

/-! Concrete turf oracles used to instantiate universally quantified
theorems at executable inputs. -/

/-- Turf oracle on which no polygon contains any point and every
distance is zero. -/
def noTurf : Turf where
  containsPoly := fun _ _ => false
  containsFeature := fun _ _ => false
  polyBoundaryDist := fun _ _ => 0
  lineDist := fun _ _ => 0
  segDist := fun _ _ => 0
  dist := fun _ _ => 0

/-- Turf oracle on which every polygon contains every point. -/
def allTurf : Turf where
  containsPoly := fun _ _ => true
  containsFeature := fun _ _ => true
  polyBoundaryDist := fun _ _ => 0
  lineDist := fun _ _ => 0
  segDist := fun _ _ => 0
  dist := fun _ _ => 0

/-! Theorems settling the claims. -/

/-- C1: for every point, flood collection and buffer radius, the
FloodRisk returned by checkFloodRisk satisfies: level is High Risk iff
inFloodExtent; level is Medium Risk iff not inFloodExtent and inBuffer;
otherwise the level is Safe; and inBuffer implies not inFloodExtent. -/
theorem checkFloodRisk_level_invariant (t : Turf) (point : Point)
    (floodExtent : Option (List Feature)) (bufferRadiusKm : ℚ) :
    ((checkFloodRisk t point floodExtent bufferRadiusKm).level = FloodLevel.highRisk ↔
      (checkFloodRisk t point floodExtent bufferRadiusKm).inFloodExtent = true) ∧
    ((checkFloodRisk t point floodExtent bufferRadiusKm).level = FloodLevel.mediumRisk ↔
      ((checkFloodRisk t point floodExtent bufferRadiusKm).inFloodExtent = false ∧
       (checkFloodRisk t point floodExtent bufferRadiusKm).inBuffer = true)) ∧
    (((checkFloodRisk t point floodExtent bufferRadiusKm).inFloodExtent = false ∧
      (checkFloodRisk t point floodExtent bufferRadiusKm).inBuffer = false) →
      (checkFloodRisk t point floodExtent bufferRadiusKm).level = FloodLevel.safe) ∧
    ((checkFloodRisk t point floodExtent bufferRadiusKm).inBuffer = true →
      (checkFloodRisk t point floodExtent bufferRadiusKm).inFloodExtent = false) := by
  cases h1 : floodInExtent t point floodExtent with
  | true => simp [checkFloodRisk, h1]
  | false =>
      cases h2 : dLe (floodMinDistance t point floodExtent bufferRadiusKm) bufferRadiusKm <;>
        simp [checkFloodRisk, h1, h2]

/-- C3: checkFloodRisk on a collection whose features sequence is empty
returns Safe with the 999 sentinel and both flags false, for every
point and buffer radius. -/
theorem checkFloodRisk_empty_collection (t : Turf) (point : Point) (bufferRadiusKm : ℚ) :
    checkFloodRisk t point (some []) bufferRadiusKm =
      { level := FloodLevel.safe, distance := 999, inFloodExtent := false, inBuffer := false } :=
  rfl

/-- C9: checkFloodRisk depends only on the first 20 features of the
flood collection; two collections agreeing on their first 20 features
(a null collection contributing no features) yield the same FloodRisk. -/
theorem checkFloodRisk_first20 (t : Turf) (point : Point) (bufferRadiusKm : ℚ)
    (fc1 fc2 : Option (List Feature))
    (h : (fc1.getD []).take 20 = (fc2.getD []).take 20) :
    checkFloodRisk t point fc1 bufferRadiusKm = checkFloodRisk t point fc2 bufferRadiusKm := by
  have key : ∀ l1 l2 : List Feature, l1.take 20 = l2.take 20 →
      checkFloodRisk t point (some l1) bufferRadiusKm =
        checkFloodRisk t point (some l2) bufferRadiusKm := by
    intro l1 l2 h20
    have h5 : l1.take 5 = l2.take 5 := by
      have := congrArg (List.take 5) h20
      simpa [List.take_take] using this
    simp only [checkFloodRisk, floodInExtent, floodMinDistance, h20, h5]
  have none_empty : checkFloodRisk t point none bufferRadiusKm =
      checkFloodRisk t point (some []) bufferRadiusKm := rfl
  cases fc1 with
  | none =>
      cases fc2 with
      | none => rfl
      | some l2 =>
          have : ([] : List Feature).take 20 = l2.take 20 := h
          rw [none_empty]
          exact key [] l2 this
  | some l1 =>
      cases fc2 with
      | none =>
          have : l1.take 20 = ([] : List Feature).take 20 := h
          rw [none_empty]
          exact key l1 [] this
      | some l2 => exact key l1 l2 h

/-- C9 witness: two concrete collections that agree on their first 20
features but differ at index 20 are classified identically. -/
theorem checkFloodRisk_first20_witness :
    ((some (List.replicate 20 (⟨none, none⟩ : Feature) ++ [⟨none, some "A"⟩]) :
        Option (List Feature)).getD []).take 20 =
      ((some (List.replicate 20 (⟨none, none⟩ : Feature)) : Option (List Feature)).getD []).take 20 ∧
    checkFloodRisk noTurf ⟨0, 0⟩
        (some (List.replicate 20 (⟨none, none⟩ : Feature) ++ [⟨none, some "A"⟩])) 5 =
      checkFloodRisk noTurf ⟨0, 0⟩ (some (List.replicate 20 (⟨none, none⟩ : Feature))) 5 :=
  ⟨by decide, checkFloodRisk_first20 noTurf ⟨0, 0⟩ 5 _ _ (by decide)⟩

/-- C6: the five catalog cost multipliers are strictly increasing from
Zone 1 through Zone 4, starting at 1.00 and ending at 1.80. -/
theorem zone_catalog_multipliers_monotone :
    (getZoneInfo "Zone 1").map (fun z => z.costMultiplier) = some 1 ∧
    (getZoneInfo "Zone 2A").map (fun z => z.costMultiplier) = some (23 / 20) ∧
    (getZoneInfo "Zone 2B").map (fun z => z.costMultiplier) = some (13 / 10) ∧
    (getZoneInfo "Zone 3").map (fun z => z.costMultiplier) = some (3 / 2) ∧
    (getZoneInfo "Zone 4").map (fun z => z.costMultiplier) = some (9 / 5) ∧
    (1 : ℚ) < 23 / 20 ∧ (23 / 20 : ℚ) < 13 / 10 ∧ (13 / 10 : ℚ) < 3 / 2 ∧
    (3 / 2 : ℚ) < 9 / 5 := by
  refine ⟨rfl, rfl, rfl, rfl, rfl, ?_, ?_, ?_, ?_⟩ <;> norm_num

/-- C7: getClimateCostMultiplier is at least 1.0 on every input and is
exactly 1.0 on a null climate record. -/
theorem climate_multiplier_ge_one :
    (∀ climate : Option ClimateData, 1 ≤ getClimateCostMultiplier climate) ∧
    getClimateCostMultiplier none = 1 := by
  refine ⟨?_, rfl⟩
  intro climate
  cases climate with
  | none => norm_num [getClimateCostMultiplier]
  | some c =>
      simp only [getClimateCostMultiplier]
      split_ifs <;> norm_num

/-- C8: a climate record with max temperature 42, precipitation 250,
humidity 85 and wind 30 gets the multiplier 1.23, the temperature
contribution coming from a single branch of the else-if chain
regardless of the minimum temperature, while precipitation, humidity
and wind each add independently. -/
theorem climate_multiplier_scenario (lat lng elev tmean tmin : ℚ) (cz : Option String) :
    getClimateCostMultiplier (some
      { latitude := lat, longitude := lng, elevation := elev,
        temperature2mMean := tmean, temperature2mMax := 42, temperature2mMin := tmin,
        precipitationSum := 250, windspeed10mMean := 30, relativehumidity2mMean := 85,
        climateZone := cz }) = 123 / 100 := by
  norm_num [getClimateCostMultiplier]

/-- Helper: the earthquake-zone feature loop is the first feature that
has geometry, has a PGA label and contains the point, with the label
copied into both result fields. -/
theorem zoneScan_eq_find (t : Turf) (point : Point) (fs : List Feature) :
    zoneScan t point fs =
      (fs.find? fun f =>
          f.geometry.isSome && f.pga.isSome && isPointInPolygon t point f.geometry).bind
        (fun f => f.pga.map fun label =>
          ({ zone := label, pga := label } : EarthquakeZoneResult)) := by
  induction fs with
  | nil => rfl
  | cons f rest ih =>
      cases hg : f.geometry.isSome with
      | false => simp [zoneScan, hg, List.find?_cons, ih]
      | true =>
          cases hpga : f.pga with
          | none => simp [zoneScan, hg, hpga, List.find?_cons, ih]
          | some label =>
              cases hc : isPointInPolygon t point f.geometry with
              | false => simp [zoneScan, hg, hpga, hc, List.find?_cons, ih]
              | true => simp [zoneScan, hg, hpga, hc, List.find?_cons]

/-- C5: findEarthquakeZone scans the features in collection order,
skips those lacking geometry or a PGA property, answers the first
remaining containment hit with the PGA label in both fields, and
returns null when nothing matches, a null collection contributing no
features. -/
theorem findEarthquakeZone_first_match (t : Turf) (point : Point)
    (earthquakeZones : Option (List Feature)) :
    findEarthquakeZone t point earthquakeZones =
      ((earthquakeZones.getD []).find? fun f =>
          f.geometry.isSome && f.pga.isSome && isPointInPolygon t point f.geometry).bind
        (fun f => f.pga.map fun label =>
          ({ zone := label, pga := label } : EarthquakeZoneResult)) := by
  cases earthquakeZones with
  | none => rfl
  | some features => simpa [findEarthquakeZone] using zoneScan_eq_find t point features

/-- C2: the total multiplier of the cost model is the product of the
earthquake, flood, elevation and environmental multipliers, the
adjusted cost per square foot is the base cost times that product, and
with base cost 2000, earthquake multiplier 1.80 and the other three at
1.0 the adjusted cost is 3600. -/
theorem cost_model_multiplicative (floodRisk : Option FloodRisk)
    (earthquakeZone : Option EarthquakeZoneResult) (elevation : Option ElevationData)
    (climate : Option ClimateData) (weather : Option WeatherData) (baseCost : ℚ) :
    totalMultiplier floodRisk earthquakeZone elevation climate weather =
      earthquakeMultiplier earthquakeZone * floodMultiplier floodRisk *
        elevationMultiplier elevation * environmentalMultiplier climate weather ∧
    adjustedCostPerSqft baseCost floodRisk earthquakeZone elevation climate weather =
      baseCost * totalMultiplier floodRisk earthquakeZone elevation climate weather ∧
    (earthquakeMultiplier earthquakeZone = 9 / 5 → floodMultiplier floodRisk = 1 →
      elevationMultiplier elevation = 1 → environmentalMultiplier climate weather = 1 →
      adjustedCostPerSqft 2000 floodRisk earthquakeZone elevation climate weather = 3600) := by
  refine ⟨rfl, rfl, ?_⟩
  intro h1 h2 h3 h4
  unfold adjustedCostPerSqft totalMultiplier
  rw [h1, h2, h3, h4]
  norm_num

/-- C2 witness: the Zone 4 label yields the 1.80 earthquake multiplier
and, with every other dimension absent, the adjusted cost 3600 on base
cost 2000. -/
theorem cost_model_multiplicative_witness :
    earthquakeMultiplier (some ⟨"Zone 4", "Zone 4"⟩) = 9 / 5 ∧
    floodMultiplier none = 1 ∧ elevationMultiplier none = 1 ∧
    environmentalMultiplier none none = 1 ∧
    adjustedCostPerSqft 2000 none (some ⟨"Zone 4", "Zone 4"⟩) none none none = 3600 :=
  ⟨by
    have hz : getZoneInfo "Zone 4" = some zone4Info := rfl
    norm_num [earthquakeMultiplier, hz, zone4Info],
    rfl, rfl, rfl,
    (cost_model_multiplicative none (some ⟨"Zone 4", "Zone 4"⟩) none none none 2000).2.2
      (by
        have hz : getZoneInfo "Zone 4" = some zone4Info := rfl
        norm_num [earthquakeMultiplier, hz, zone4Info])
      rfl rfl rfl⟩

/-- C10: a zone result whose label is none of the five catalog keys
resolves to a null catalog entry, its earthquake multiplier silently
falls back to 1.0, and the adjusted cost equals the no-zone-matched
cost. -/
theorem unrecognized_zone_label_no_cost (t : Turf) (point : Point)
    (zones : Option (List Feature)) (res : EarthquakeZoneResult)
    (floodRisk : Option FloodRisk) (elevation : Option ElevationData)
    (climate : Option ClimateData) (weather : Option WeatherData) (baseCost : ℚ)
    (_hfind : findEarthquakeZone t point zones = some res)
    (h1 : res.zone ≠ "Zone 1") (h2 : res.zone ≠ "Zone 2A") (h3 : res.zone ≠ "Zone 2B")
    (h4 : res.zone ≠ "Zone 3") (h5 : res.zone ≠ "Zone 4") :
    getZoneInfo res.zone = none ∧
    earthquakeMultiplier (some res) = 1 ∧
    adjustedCostPerSqft baseCost floodRisk (some res) elevation climate weather =
      adjustedCostPerSqft baseCost floodRisk none elevation climate weather := by
  have hz : getZoneInfo res.zone = none := by
    simp [getZoneInfo, earthquakeZonesInfo, h1, h2, h3, h4, h5]
  have hm : earthquakeMultiplier (some res) = 1 := by
    simp [earthquakeMultiplier, hz]
  have hnone : earthquakeMultiplier none = 1 := rfl
  refine ⟨hz, hm, ?_⟩
  unfold adjustedCostPerSqft totalMultiplier
  rw [hm, hnone]

/-- C10 witness: a matched zone labelled Zone 5 resolves to no catalog
entry and leaves the cost identical to the unmatched case. -/
theorem unrecognized_zone_label_no_cost_witness :
    findEarthquakeZone allTurf ⟨0, 0⟩
        (some [⟨some (.polygon [[(0, 0)]]), some "Zone 5"⟩]) =
      some ⟨"Zone 5", "Zone 5"⟩ ∧
    getZoneInfo "Zone 5" = none ∧
    earthquakeMultiplier (some ⟨"Zone 5", "Zone 5"⟩) = 1 ∧
    adjustedCostPerSqft 2000 none (some ⟨"Zone 5", "Zone 5"⟩) none none none =
      adjustedCostPerSqft 2000 none none none none none :=
  ⟨by decide,
    unrecognized_zone_label_no_cost allTurf ⟨0, 0⟩
      (some [⟨some (.polygon [[(0, 0)]]), some "Zone 5"⟩]) ⟨"Zone 5", "Zone 5"⟩
      none none none none 2000 (by decide)
      (by decide) (by decide) (by decide) (by decide) (by decide)⟩

/-- C4 counterexample: on a null collection findNearestFloodPoint
returns the Infinity distance of its early return, not the 999
sentinel. -/
theorem findNearestFloodPoint_null_not_sentinel :
    (findNearestFloodPoint noTurf ⟨0, 0⟩ none).distance = none ∧
    (findNearestFloodPoint noTurf ⟨0, 0⟩ none).distance ≠ some 999 :=
  ⟨rfl, by decide⟩

/-- C4 (amended): findNearestFloodPoint returns distance 999 and a null
nearest point when the features sequence is present but empty or no
scanned feature yields a finite boundary distance; on a null collection
or a missing features field it returns the Infinity distance and a null
nearest point instead. -/
theorem findNearestFloodPoint_sentinels (t : Turf) (point : Point) :
    findNearestFloodPoint t point none =
      { distance := none, nearestPoint := none, feature := none } ∧
    ∀ fs : List Feature,
      (∀ f ∈ fs.take 10, (featureClosest t point f).1 = none) →
      findNearestFloodPoint t point (some fs) =
        { distance := some 999, nearestPoint := none, feature := none } := by
  refine ⟨rfl, ?_⟩
  intro fs hall
  have step_id : ∀ (st : NearState) (f : Feature), (featureClosest t point f).1 = none →
      nearestStep t point st f = st := by
    intro st f hf
    simp [nearestStep, hf, dLt]
  have fold_id : ∀ l : List Feature, (∀ f ∈ l, (featureClosest t point f).1 = none) →
      ∀ st : NearState, l.foldl (nearestStep t point) st = st := by
    intro l
    induction l with
    | nil => intro _ st; rfl
    | cons f rest ih =>
        intro h st
        rw [List.foldl_cons, step_id st f (h f (by simp))]
        exact ih (fun g hg => h g (by simp [hg])) st
  have hfold := fold_id (fs.take 10) hall ⟨none, none, none⟩
  simp [findNearestFloodPoint, hfold]

/-- C4 witness: a single feature without geometry yields no finite
distance, so the scan returns the 999 sentinel with a null nearest
point. -/
theorem findNearestFloodPoint_sentinels_witness :
    (∀ f ∈ ([⟨none, none⟩] : List Feature).take 10,
      (featureClosest noTurf ⟨0, 0⟩ f).1 = none) ∧
    findNearestFloodPoint noTurf ⟨0, 0⟩ (some [⟨none, none⟩]) =
      { distance := some 999, nearestPoint := none, feature := none } :=
  ⟨by decide, (findNearestFloodPoint_sentinels noTurf ⟨0, 0⟩).2 [⟨none, none⟩] (by decide)⟩

end Bendcrete
